import Mathlib

/-!
Verification development for the luogu-saver-bot koishi plugin
(`src/index.ts`). The definitions below are a shallow embedding of the
plugin's remote-service client, its HTML snapshot generator, and the two
render-and-capture commands, translated from the TypeScript source.
Theorems at the end of the file settle the frozen specification claims
against these definitions.
-/

namespace LuoguSaverBot

/-! ## A small model of dynamic JavaScript values

The untyped client methods (`getRecent`, `getRelevant`, `getHistory`)
navigate the HTTP response with optional chaining (`res?.data?.data`) and
nullish coalescing (`?? null`).  We model the dynamic values those
expressions operate on. -/

/-- A dynamic JavaScript value, as far as the embedded code needs:
`null`, `undefined`, numbers, strings, arrays and plain objects. -/
inductive JsVal where
  | nullV : JsVal
  | undefinedV : JsVal
  | num : Int → JsVal
  | str : String → JsVal
  | arr : List JsVal → JsVal
  | obj : List (String × JsVal) → JsVal

/-- Property access `v.f` on a JavaScript value: on an object it looks up
the named own property (or yields `undefined`); arrays, numbers and
strings have no own property named `data`, `code`, … — access yields
`undefined`.  (We never access built-ins such as `length`.) -/
def jsField : JsVal → String → JsVal
  | .obj fields, f =>
    match fields.lookup f with
    | some v => v
    | none => .undefinedV
  | _, _ => .undefinedV

/-- A value is nullish when it is `null` or `undefined`. -/
def isNullish : JsVal → Bool
  | .nullV => true
  | .undefinedV => true
  | _ => false

/-- Optional chaining `v?.f`: `undefined` when `v` is nullish, ordinary
property access otherwise. -/
def optChain (v : JsVal) (f : String) : JsVal :=
  if isNullish v then .undefinedV else jsField v f

/-- Nullish coalescing `v ?? d`. -/
def nullishCoalesce (v d : JsVal) : JsVal :=
  if isNullish v then d else v

/-! ## Data model of the remote-service client (`src/index.ts`, types) -/

/-- The response envelope `StdResponse<A> = { code, message, data }`. -/
structure StdResponse (A : Type) where
  code : Int
  message : String
  data : A
  deriving DecidableEq

/-- The `Article` record type from the source. -/
structure Article where
  id : String
  title : String
  content : String
  authorId : Int
  category : Int
  upvote : Option Int
  favorCount : Option Int
  solutionForPid : Option String
  priority : Option Int
  deleted : Option Int
  tags : List String
  createdAt : Option String
  updatedAt : Option String
  deleteReason : Option String
  contentHash : Option String
  viewCount : Option Int
  renderedContent : Option String
  deriving DecidableEq

/-- The nested `author` object of a `Paste`. -/
structure PasteAuthor where
  id : Int
  name : String
  color : Option String
  createdAt : Option String
  updatedAt : Option String
  deriving DecidableEq

/-- The `Paste` record type from the source (`deleted` is
`number | boolean` there, modelled as a sum). -/
structure Paste where
  id : String
  content : String
  authorId : Int
  deleted : Option (Int ⊕ Bool)
  createdAt : Option String
  updatedAt : Option String
  deleteReason : Option String
  renderedContent : Option String
  author : Option PasteAuthor
  deriving DecidableEq

/-- Type `TaskQuery = Record<string, any> | null` from the source. -/
def TaskQuery : Type := Option (List (String × JsVal))

/-- Type `TaskCreateResponse` (field `taskId : string`) from the source. -/
structure TaskCreateResponse where
  taskId : String
  deriving DecidableEq

/-- A transport-level failure of the HTTP call itself (the promise
returned by `ctx.http.get` / `ctx.http.post` rejecting).  Such failures
propagate out of the client methods as thrown errors, modelled with
`Except`. -/
inductive TransportError where
  | timeout
  | connectionRefused
  deriving DecidableEq

/-! ## `LuoguSaverClient` methods

Each method is embedded as a function of the outcome of its HTTP call:
a `TransportError` models the awaited call rejecting (which the method
re-raises, having no try/catch), and an `ok` value is the decoded
response body.  URL construction (`buildUrl`) is embedded separately. -/

/-- The trimming step `this.endpoint.replace(/\/$/, '')` of `buildUrl`:
the regular expression removes one trailing slash, if present. -/
def stripOneTrailingSlash (s : String) : String :=
  if s.data.getLast? = some '/' then ⟨s.data.dropLast⟩ else s

/-- The test `path.startsWith('/')` of `buildUrl`: whether the first
character is a slash. -/
def startsWithSlash (s : String) : Bool :=
  s.data.head? = some '/'

/-- Method `LuoguSaverClient.buildUrl` from the source: trim one trailing slash
from the endpoint; an empty base yields the path as-is; otherwise join
base and path, inserting a slash exactly when the path does not already
start with one. -/
def buildUrl (endpoint path : String) : String :=
  let base := stripOneTrailingSlash endpoint
  if base = "" then path
  else if startsWithSlash path then base ++ path
  else base ++ "/" ++ path

/-- Method `LuoguSaverClient.getArticle`: on a response envelope with
`code !== 200` return `null`, otherwise return `res.data`; a transport
failure propagates. -/
def getArticle (res : Except TransportError (StdResponse Article)) :
    Except TransportError (Option Article) :=
  match res with
  | .error e => .error e
  | .ok r => if r.code ≠ 200 then .ok none else .ok (some r.data)

/-- Method `LuoguSaverClient.getPaste`: same envelope policy as `getArticle`. -/
def getPaste (res : Except TransportError (StdResponse Paste)) :
    Except TransportError (Option Paste) :=
  match res with
  | .error e => .error e
  | .ok r => if r.code ≠ 200 then .ok none else .ok (some r.data)

/-- Method `LuoguSaverClient.getTask`: same envelope policy, payload type
`TaskQuery`. -/
def getTask (res : Except TransportError (StdResponse TaskQuery)) :
    Except TransportError (Option TaskQuery) :=
  match res with
  | .error e => .error e
  | .ok r => if r.code ≠ 200 then .ok none else .ok (some r.data)

/-- Method `LuoguSaverClient.createTask`: on `code !== 200` return `null`,
otherwise `res.data.taskId`. -/
def createTask (res : Except TransportError (StdResponse TaskCreateResponse)) :
    Except TransportError (Option String) :=
  match res with
  | .error e => .error e
  | .ok r => if r.code ≠ 200 then .ok none else .ok (some r.data.taskId)

/-- Method `LuoguSaverClient.getRecent`: the source returns
`res?.data?.data ?? null` where `res` is the decoded response body
(the envelope, per the generic type arguments used by the typed sibling
methods).  Embedded verbatim over dynamic values. -/
def getRecent (res : Except TransportError JsVal) :
    Except TransportError JsVal :=
  match res with
  | .error e => .error e
  | .ok v => .ok (nullishCoalesce (optChain (optChain v "data") "data") .nullV)

/-- Method `LuoguSaverClient.getRelevant`: same result expression
`res?.data?.data ?? null` as `getRecent`. -/
def getRelevant (res : Except TransportError JsVal) :
    Except TransportError JsVal :=
  match res with
  | .error e => .error e
  | .ok v => .ok (nullishCoalesce (optChain (optChain v "data") "data") .nullV)

/-- Method `LuoguSaverClient.getHistory`: same result expression
`res?.data?.data ?? null` as `getRecent`. -/
def getHistory (res : Except TransportError JsVal) :
    Except TransportError JsVal :=
  match res with
  | .error e => .error e
  | .ok v => .ok (nullishCoalesce (optChain (optChain v "data") "data") .nullV)

/-! ## Viewport configuration of the capture commands

Both capture commands run
`const width = Number(options.width) || 960` and
`page.setViewport({ width, height: 800, deviceScaleFactor: 2 })`. -/

/-- A JavaScript number: either NaN or an ordinary numeric value. -/
inductive JsNumber where
  | nan : JsNumber
  | val : Int → JsNumber
  deriving DecidableEq

/-- Conversion `Number(options.width)`: `Number(undefined)` is NaN; a number
converts to itself. -/
def jsNumberOf : Option JsNumber → JsNumber
  | none => .nan
  | some n => n

/-- JavaScript truthiness of a number: NaN and 0 are falsy. -/
def jsTruthy : JsNumber → Bool
  | .nan => false
  | .val x => !(x == 0)

/-- The argument record of `page.setViewport`. -/
structure Viewport where
  width : JsNumber
  height : Int
  deviceScaleFactor : Int
  deriving DecidableEq

/-- The width computed by the article command:
`Number(options.width) || 960`. -/
def articleViewportWidth (w : Option JsNumber) : JsNumber :=
  let n := jsNumberOf w
  if jsTruthy n then n else .val 960

/-- The viewport the article command applies. -/
def articleViewport (w : Option JsNumber) : Viewport :=
  ⟨articleViewportWidth w, 800, 2⟩

/-- The width computed by the paste command (same expression as the
article command). -/
def pasteViewportWidth (w : Option JsNumber) : JsNumber :=
  let n := jsNumberOf w
  if jsTruthy n then n else .val 960

/-- The viewport the paste command applies. -/
def pasteViewport (w : Option JsNumber) : Viewport :=
  ⟨pasteViewportWidth w, 800, 2⟩

/-! ## The in-page image-readiness wait

Both commands evaluate, inside the page, a promise over
`document.images`:

* empty image list: `if (!imgs.length) return resolve(null)` — resolve
  synchronously, before any `setTimeout` or `addEventListener` call;
* otherwise each already-`complete` image counts immediately; every
  other image gets a `load` and an `error` listener, sharing one handler
  that counts it on either event; a `setTimeout` of 5000 ms resolves the
  promise even if some image never fires.

We model each enumerated image by whether it is already complete, the
time at which its load-or-error event fires (if ever), and which of the
two events it is. -/

/-- The fixed image-readiness ceiling, `setTimeout(..., 5000)`. -/
def imageWaitCeilingMs : Nat := 5000

/-- One enumerated `document.images` entry: `complete` at enumeration
time, the instant (ms after the wait starts) at which its load-or-error
event fires (`none` = never), and whether that event is `error`. -/
structure ImgState where
  complete : Bool
  eventAt : Option Nat
  isError : Bool
  deriving DecidableEq

/-- The handler is registered for `load` events
(`img.addEventListener('load', handler)`). -/
def attachesLoadListener : Bool := true

/-- The handler is also registered for `error` events
(`img.addEventListener('error', handler)`). -/
def attachesErrorListener : Bool := true

/-- The instant at which an incomplete image's event actually reaches
the counting handler: its event time, provided a listener for that
event kind was attached. -/
def countedEvent (i : ImgState) : Option Nat :=
  match i.eventAt with
  | none => none
  | some t =>
    if i.isError then
      if attachesErrorListener then some t else none
    else
      if attachesLoadListener then some t else none

/-- Observable outcome of the in-page wait: the instant the promise
resolves, whether a timeout was registered, and how many event
listeners were registered. -/
structure WaitOutcome where
  resolveAt : Nat
  timerSet : Bool
  listenerCount : Nat
  deriving DecidableEq

/-- Images that are not `complete` at enumeration time (they receive
listeners). -/
def pendingImgs (imgs : List ImgState) : List ImgState :=
  imgs.filter (fun i => !i.complete)

/-- The instant at which the last pending image is counted (0 when all
images are already complete). -/
def lastCompletionTime (imgs : List ImgState) : Nat :=
  (pendingImgs imgs).foldr (fun i acc => max ((countedEvent i).getD 0) acc) 0

/-- Whether every pending image eventually reaches the counting handler
(its load or error event fires while a matching listener is attached). -/
def allEventuallyCounted (imgs : List ImgState) : Bool :=
  (pendingImgs imgs).all (fun i => (countedEvent i).isSome)

/-- The article command's in-page image wait (`src/index.ts` image
promise in the article action, with `clearTimeout` on completion): an
empty list resolves at once with no timer and no listeners; otherwise
the promise resolves when the counter reaches the image count, or at
the 5000 ms timeout, whichever is first. -/
def articleImageWait (imgs : List ImgState) : WaitOutcome :=
  if imgs.isEmpty then ⟨0, false, 0⟩
  else if allEventuallyCounted imgs then
    ⟨min (lastCompletionTime imgs) imageWaitCeilingMs, true,
      2 * (pendingImgs imgs).length⟩
  else ⟨imageWaitCeilingMs, true, 2 * (pendingImgs imgs).length⟩

/-- The paste command's in-page image wait (image promise in the paste
action).  The code differs syntactically from the article variant — the
`setTimeout` is registered after the enumeration loop and is never
cleared — but resolution (a promise resolves only once), timer
registration and listener registration are the same observables. -/
def pasteImageWait (imgs : List ImgState) : WaitOutcome :=
  if imgs.isEmpty then ⟨0, false, 0⟩
  else if allEventuallyCounted imgs then
    ⟨min (lastCompletionTime imgs) imageWaitCeilingMs, true,
      2 * (pendingImgs imgs).length⟩
  else ⟨imageWaitCeilingMs, true, 2 * (pendingImgs imgs).length⟩

/-! ## The HTML snapshot generator (`generateHtml`)

The source builds one template literal with exactly three
interpolations: `${md.utils.escapeHtml(title)}`,
`${md.utils.escapeHtml(authorInfo)}` and `${renderedBody}` where
`renderedBody = md.render(markdownContent)`.  The fixed text between
the interpolation points is transcribed below verbatim (braces written
with their escape codes). -/

/-- markdown-it's `utils.escapeHtml` on one character: `&`, `<`, `>`
and the double quote become entities; every other character is kept. -/
def escapeHtmlChar (c : Char) : String :=
  if c = '&' then "&amp;"
  else if c = '<' then "&lt;"
  else if c = '>' then "&gt;"
  else if c = '"' then "&quot;"
  else String.singleton c

/-- markdown-it's `utils.escapeHtml`, applied by `generateHtml` to the
title and the author info. -/
def escapeHtml (s : String) : String :=
  s.data.foldr (fun c acc => escapeHtmlChar c ++ acc) ""

/-- Fixed text of the HTML snapshot template up to the title interpolation point (doctype, stylesheet links and the embedded stylesheet), transcribed verbatim from `generateHtml`. -/
def htmlChunk0 : String :=
  "<!doctype html>\n<html>\n<head>\n  <meta charset=\"utf-8\">\n  <meta name=\"viewport\" content=\"width=device-width,initial-scale=1\">\n  \n  <link rel=\"stylesheet\" href=\"https://cdn.jsdelivr.net/npm/highlight.js@11.7.0/styles/github.min.css\">\n  \n  <link rel=\"stylesheet\" href=\"https://cdn.jsdelivr.net/npm/katex@0.16.4/dist/katex.min.css\">\n\n  <style>\n    /* 基础重置与变量 */\n    :root \x7b\n      --bg-color: #f6f8fa;\n      --card-bg: #ffffff;\n      --text-primary: #24292f;\n      --text-secondary: #57606a;\n      --border-color: #d0d7de;\n      --accent-color: #0969da;\n    \x7d\n    \n    body \x7b\n      margin: 0;\n      padding: 40px;\n      background-color: var(--bg-color);\n      font-family: -apple-system, BlinkMacSystemFont, \"Segoe UI\", \"Noto Sans\", Helvetica, Arial, sans-serif, \"Apple Color Emoji\", \"Segoe UI Emoji\";\n      color: var(--text-primary);\n      line-height: 1.5;\n    \x7d\n\n    .container \x7b\n      max-width: 900px;\n      margin: 0 auto;\n    \x7d\n\n    .card \x7b\n      background: var(--card-bg);\n      border: 1px solid var(--border-color);\n      border-radius: 6px;\n      padding: 32px 40px;\n      box-shadow: 0 3px 6px rgba(140, 149, 159, 0.15);\n    \x7d\n\n    /* 头部信息 */\n    header \x7b\n      border-bottom: 1px solid var(--border-color);\n      padding-bottom: 20px;\n      margin-bottom: 24px;\n    \x7d\n    \n    h1.title \x7b\n      margin: 0 0 8px 0;\n      font-size: 28px;\n      font-weight: 600;\n    \x7d\n\n    .meta \x7b\n      font-size: 14px;\n      color: var(--text-secondary);\n    \x7d\n\n    /* Markdown 内容美化 (仿 GitHub 风格) */\n    .markdown-body \x7b\n      font-size: 16px;\n      line-height: 1.6;\n    \x7d\n\n    .markdown-body h1, .markdown-body h2, .markdown-body h3 \x7b\n      margin-top: 24px;\n      margin-bottom: 16px;\n      font-weight: 600;\n      line-height: 1.25;\n    \x7d\n    .markdown-body h1 \x7b font-size: 2em; padding-bottom: .3em; border-bottom: 1px solid #d0d7de; \x7d\n    .markdown-body h2 \x7b font-size: 1.5em; padding-bottom: .3em; border-bottom: 1px solid #d0d7de; \x7d\n    .markdown-body h3 \x7b font-size: 1.25em; \x7d\n\n    .markdown-body p \x7b margin-bottom: 16px; \x7d\n    \n    .markdown-body a \x7b color: var(--accent-color); text-decoration: none; \x7d\n    .markdown-body a:hover \x7b text-decoration: underline; \x7d\n\n    .markdown-body blockquote \x7b\n      margin: 0 0 16px;\n      padding: 0 1em;\n      color: var(--text-secondary);\n      border-left: 0.25em solid var(--border-color);\n    \x7d\n\n    .markdown-body ul, .markdown-body ol \x7b padding-left: 2em; margin-bottom: 16px; \x7d\n\n    /* 表格样式 */\n    .markdown-body table \x7b\n      border-spacing: 0;\n      border-collapse: collapse;\n      margin-bottom: 16px;\n      width: max-content;\n      max-width: 100%;\n      overflow: auto;\n      display: block;\n    \x7d\n    .markdown-body table th, .markdown-body table td \x7b\n      padding: 6px 13px;\n      border: 1px solid var(--border-color);\n    \x7d\n    .markdown-body table tr \x7b background-color: #fff; border-top: 1px solid #c6cbd1; \x7d\n    .markdown-body table tr:nth-child(2n) \x7b background-color: #f6f8fa; \x7d\n\n    /* 代码块微调 */\n    .markdown-body pre \x7b\n      padding: 16px;\n      overflow: auto;\n      font-size: 85%;\n      line-height: 1.45;\n      background-color: #f6f8fa;\n      border-radius: 6px;\n    \x7d\n    .markdown-body code \x7b\n      padding: 0.2em 0.4em;\n      margin: 0;\n      font-size: 85%;\n      background-color: rgba(175,184,193,0.2);\n      border-radius: 6px;\n      font-family: ui-monospace, SFMono-Regular, \"SF Mono\", Menlo, Consolas, \"Liberation Mono\", monospace;\n    \x7d\n    .markdown-body pre code \x7b\n      padding: 0;\n      background-color: transparent;\n    \x7d\n    \n    /* 图片自适应 */\n    .markdown-body img \x7b\n      max-width: 100%;\n      box-sizing: content-box;\n      background-color: #fff;\n    \x7d\n    \n    /* KaTeX 字体修复 */\n    .katex \x7b font-size: 1.1em; \x7d\n  </style>\n</head>\n<body>\n  <div class=\"container\">\n    <div class=\"card\">\n      <header>\n        <h1 class=\"title\">"

/-- Fixed template text between the escaped title and the escaped author-info interpolation points. -/
def htmlChunk1 : String :=
  "</h1>\n        <div class=\"meta\">"

/-- Fixed template text between the escaped author info and the rendered body. -/
def htmlChunk2 : String :=
  "</div>\n      </header>\n      <article class=\"markdown-body\">\n        "

/-- Fixed template text after the rendered body (closing tags). -/
def htmlChunk3 : String :=
  "\n      </article>\n    </div>\n  </div>\n</body>\n</html>"

/-- Function `generateHtml` from the source, as a function of the already
rendered markdown body: the fixed template with the escaped title, the
escaped author info and the body inserted at the three interpolation
points. -/
def generateHtml (title authorInfo renderedBody : String) : String :=
  htmlChunk0 ++ escapeHtml title ++ htmlChunk1 ++ escapeHtml authorInfo
    ++ htmlChunk2 ++ renderedBody ++ htmlChunk3

/-! ## The markdown engine configuration

`generateHtml` constructs the engine with
`new MarkdownIt({ html: true, breaks: true })`.  The engine itself is an
external dependency; its option-dependent treatment of raw inline HTML
is modelled below. -/

/-- The options record passed to the `MarkdownIt` constructor. -/
structure MarkdownItConfig where
  html : Bool
  breaks : Bool
  deriving DecidableEq

/-- The configuration used by `generateHtml`:
`{ html: true, breaks: true }`. -/
def mdConfig : MarkdownItConfig := ⟨true, true⟩

/-- A fragment of parsed markdown body content: plain text, or a raw
inline-HTML fragment. -/
inductive MdToken where
  | text : String → MdToken
  | htmlInline : String → MdToken

/-- Modelled from the spec: the markdown engine's rendering of one
token — plain text is emitted through the engine's HTML-escaping
discipline, and a raw inline-HTML fragment is emitted verbatim exactly
when the `html` option is enabled (the engine is an external library,
not part of `src/`). -/
def renderToken (cfg : MarkdownItConfig) : MdToken → String
  | .text s => escapeHtml s
  | .htmlInline s => if cfg.html then s else escapeHtml s

/-- Modelled from the spec: `md.render` over a tokenised body —
concatenation of the rendered tokens. -/
def mdRender (cfg : MarkdownItConfig) : List MdToken → String
  | [] => ""
  | t :: ts => renderToken cfg t ++ mdRender cfg ts

/-! ## Substring search (used to inspect the generated snapshot) -/

/-- Whether the second list is a prefix of the first (over characters). -/
def startsWithList : List Char → List Char → Bool
  | _, [] => true
  | [], _ :: _ => false
  | a :: as, b :: bs => a == b && startsWithList as bs

/-- Whether the pattern occurs as a contiguous run inside the list. -/
def hasSubstrList : List Char → List Char → Bool
  | [], pat => pat.isEmpty
  | c :: rest, pat => startsWithList (c :: rest) pat || hasSubstrList rest pat

/-- Whether `pat` occurs as a contiguous substring of `s`. -/
def hasSubstr (s pat : String) : Bool :=
  hasSubstrList s.data pat.data

/-! ## The two capture commands as event traces

`获取文章` (article) and `获取剪贴板` (paste) share the shape: acquire a
page, then inside `try … catch … finally { page.close() }` set the
viewport, load the snapshot, run readiness waits, and screenshot.  We
model one run as the list of page-level events it performs together with
its reply, as a function of which steps fail.  Waits wrapped in their
own `try { … } catch` (the font wait, the katex flag wait, the image
wait) cannot abort the run; a throw from `setViewport`, `setContent` or
`screenshot` jumps to the outer `catch`, after which `finally` still
runs. -/

/-- Page-level events of one command run. -/
inductive Ev where
  | acquire : Ev
  | setViewport : Ev
  | setContent : Ev
  | fontsWait : Ev
  | fontsWarnLog : Ev
  | katexWait : Ev
  | imagesWait : Ev
  | screenshot : Ev
  | close : Ev
  deriving DecidableEq

/-- The reply a command run produces. -/
inductive CmdReply where
  | askForId : CmdReply
  | notFoundMsg : CmdReply
  | noPuppeteerMsg : CmdReply
  | imageReply : CmdReply
  | failureMsg : CmdReply
  | uncaughtError : CmdReply
  deriving DecidableEq

/-- Failure profile of one article-command run.  `imagesEvalThrows`
corresponds to the image wait's `page.evaluate` rejecting; its
surrounding `catch (e) {}` is empty, so it has no observable effect. -/
structure ArticleEnv where
  idProvided : Bool
  articleFound : Bool
  puppeteerAvailable : Bool
  acquireOk : Bool
  viewportThrows : Bool
  contentThrows : Bool
  fontsReadyThrows : Bool
  imagesEvalThrows : Bool
  screenshotThrows : Bool
  deriving DecidableEq

/-- The failure profile is equivalent to a tuple of its nine flags
(used to decide universally quantified statements over all profiles). -/
def articleEnvEquiv :
    ArticleEnv ≃ (Bool × Bool × Bool × Bool × Bool × Bool × Bool × Bool × Bool) where
  toFun e :=
    (e.idProvided, e.articleFound, e.puppeteerAvailable, e.acquireOk,
      e.viewportThrows, e.contentThrows, e.fontsReadyThrows,
      e.imagesEvalThrows, e.screenshotThrows)
  invFun t :=
    ⟨t.1, t.2.1, t.2.2.1, t.2.2.2.1, t.2.2.2.2.1, t.2.2.2.2.2.1,
      t.2.2.2.2.2.2.1, t.2.2.2.2.2.2.2.1, t.2.2.2.2.2.2.2.2⟩
  left_inv _ := rfl
  right_inv _ := rfl

instance : Fintype ArticleEnv :=
  Fintype.ofEquiv _ articleEnvEquiv.symm

/-- One run of the article command (`获取文章`): the guard returns, then
page acquisition, then the `try/catch/finally` body.  The font wait is in
its own `try`, whose `catch` logs a warning and continues; the image
wait's `catch` is empty; a throw in `setViewport`/`setContent`/
`screenshot` reaches the outer `catch` (reply `获取失败`); the `finally`
closes the page on every path. -/
def articleRun (e : ArticleEnv) : List Ev × CmdReply :=
  if !e.idProvided then ([], .askForId)
  else if !e.articleFound then ([], .notFoundMsg)
  else if !e.puppeteerAvailable then ([], .noPuppeteerMsg)
  else if !e.acquireOk then ([], .uncaughtError)
  else
    let body :=
      if e.viewportThrows then ([Ev.setViewport], CmdReply.failureMsg)
      else if e.contentThrows then
        ([Ev.setViewport, Ev.setContent], CmdReply.failureMsg)
      else
        let fontsEvs :=
          if e.fontsReadyThrows then [Ev.fontsWait, Ev.fontsWarnLog]
          else [Ev.fontsWait]
        let pre := [Ev.setViewport, Ev.setContent] ++ fontsEvs ++ [Ev.imagesWait]
        if e.screenshotThrows then (pre ++ [Ev.screenshot], CmdReply.failureMsg)
        else (pre ++ [Ev.screenshot], CmdReply.imageReply)
    (Ev.acquire :: (body.1 ++ [Ev.close]), body.2)

/-- Failure profile of one paste-command run.  `katexWaitTimesOut`
corresponds to `page.waitForFunction` timing out; its surrounding
`catch (e) {}` is empty, so it has no observable effect. -/
structure PasteEnv where
  idProvided : Bool
  pasteFound : Bool
  puppeteerAvailable : Bool
  acquireOk : Bool
  viewportThrows : Bool
  contentThrows : Bool
  katexWaitTimesOut : Bool
  imagesEvalThrows : Bool
  screenshotThrows : Bool
  deriving DecidableEq

/-- The failure profile is equivalent to a tuple of its nine flags. -/
def pasteEnvEquiv :
    PasteEnv ≃ (Bool × Bool × Bool × Bool × Bool × Bool × Bool × Bool × Bool) where
  toFun e :=
    (e.idProvided, e.pasteFound, e.puppeteerAvailable, e.acquireOk,
      e.viewportThrows, e.contentThrows, e.katexWaitTimesOut,
      e.imagesEvalThrows, e.screenshotThrows)
  invFun t :=
    ⟨t.1, t.2.1, t.2.2.1, t.2.2.2.1, t.2.2.2.2.1, t.2.2.2.2.2.1,
      t.2.2.2.2.2.2.1, t.2.2.2.2.2.2.2.1, t.2.2.2.2.2.2.2.2⟩
  left_inv _ := rfl
  right_inv _ := rfl

instance : Fintype PasteEnv :=
  Fintype.ofEquiv _ pasteEnvEquiv.symm

/-- One run of the paste command (`获取剪贴板`): like the article
command, except that between `setContent` and the image wait it performs
the katex flag wait (`page.waitForFunction` on
`window.__katex_render_done === true`, timeout tolerated by an empty
`catch`) and performs no font wait. -/
def pasteRun (e : PasteEnv) : List Ev × CmdReply :=
  if !e.idProvided then ([], .askForId)
  else if !e.pasteFound then ([], .notFoundMsg)
  else if !e.puppeteerAvailable then ([], .noPuppeteerMsg)
  else if !e.acquireOk then ([], .uncaughtError)
  else
    let body :=
      if e.viewportThrows then ([Ev.setViewport], CmdReply.failureMsg)
      else if e.contentThrows then
        ([Ev.setViewport, Ev.setContent], CmdReply.failureMsg)
      else
        let pre := [Ev.setViewport, Ev.setContent, Ev.katexWait, Ev.imagesWait]
        if e.screenshotThrows then (pre ++ [Ev.screenshot], CmdReply.failureMsg)
        else (pre ++ [Ev.screenshot], CmdReply.imageReply)
    (Ev.acquire :: (body.1 ++ [Ev.close]), body.2)

/-- The timeout of the paste command's katex flag wait:
`{ timeout: 20000 }`. -/
def katexWaitTimeoutMs : Nat := 20000

/-- The predicate string the paste command polls with
`page.waitForFunction`. -/
def katexWaitCondition : String := "window.__katex_render_done === true"

/-- The global flag name the katex wait polls. -/
def katexFlagName : String := "__katex_render_done"

/-- Effect of one page-level event on the browser pool's
available-surface count: acquiring a page takes one surface, closing it
returns one. -/
def poolDelta : Ev → Int
  | .acquire => -1
  | .close => 1
  | _ => 0

/-- Net change of the pool's available-surface count over one run's
event trace. -/
def netPoolChange (tr : List Ev) : Int :=
  (tr.map poolDelta).sum


/-! ## Concrete inputs used by witnesses and counterexamples -/

/-- A concrete image list for the C3 witness: one image whose `error`
event fires at 1200 ms and one whose `load` event fires at 300 ms. -/
def witnessImgs : List ImgState :=
  [⟨false, some 1200, true⟩, ⟨false, some 300, false⟩]

/-- An all-success failure profile for the paste command. -/
def pasteAllOk : PasteEnv :=
  ⟨true, true, true, true, false, false, false, false, false⟩

/-- Whether the first list occurs as a (not necessarily contiguous)
subsequence of the second, preserving order. -/
def isSubseqOf : List Ev → List Ev → Bool
  | [], _ => true
  | _ :: _, [] => false
  | a :: as, b :: bs => if a = b then isSubseqOf as bs else isSubseqOf (a :: as) bs

/-- An article-command failure profile whose font wait throws and whose
other steps succeed. -/
def articleFontsThrow : ArticleEnv :=
  ⟨true, true, true, true, false, false, true, false, false⟩

/-- A paste-command failure profile whose katex flag wait times out and
whose other steps succeed. -/
def pasteKatexTimeout : PasteEnv :=
  ⟨true, true, true, true, false, false, true, false, false⟩

/-- A concrete article record for the C6 witness. -/
def sampleArticle : Article :=
  ⟨"a1", "T", "body", 42, 1, none, none, none, none, none, [], none, none,
    none, none, none, none⟩

/-- A success envelope carrying a list of records, as a dynamic value:
`code: 200`, `message: "ok"`, `data`: a one-element record list. -/
def successEnvelope : JsVal :=
  .obj [("code", .num 200), ("message", .str "ok"),
    ("data", .arr [.obj [("id", .str "a1"), ("title", .str "T")]])]

/-! ## Helper lemmas -/

/-- A counted event exists exactly when the image's load-or-error event
fires, because the shared handler is registered for both event kinds. -/
theorem countedEvent_isSome (i : ImgState) :
    (countedEvent i).isSome = i.eventAt.isSome := by
  cases h : i.eventAt with
  | none => simp [countedEvent, h]
  | some t =>
    cases he : i.isError <;>
      simp [countedEvent, h, he, attachesLoadListener, attachesErrorListener]

/-- If every image is already complete or eventually fires its
load-or-error event, then every pending image is eventually counted. -/
theorem allEventuallyCounted_of (imgs : List ImgState)
    (h : ∀ i ∈ imgs, i.complete = true ∨ i.eventAt.isSome = true) :
    allEventuallyCounted imgs = true := by
  unfold allEventuallyCounted pendingImgs
  rw [List.all_eq_true]
  intro i hi
  rw [List.mem_filter] at hi
  rcases h i hi.1 with hc | he
  · rw [hc] at hi
    simp at hi
  · rw [countedEvent_isSome]
    exact he

/-- The two in-page image waits have the same observable semantics. -/
theorem pasteImageWait_eq_articleImageWait (imgs : List ImgState) :
    pasteImageWait imgs = articleImageWait imgs := rfl

/-- The article-path image wait resolves no later than the ceiling on a
nonempty image list. -/
theorem articleImageWait_resolveAt_le (imgs : List ImgState) (h : imgs ≠ []) :
    (articleImageWait imgs).resolveAt ≤ imageWaitCeilingMs := by
  have he : imgs.isEmpty = false := by
    simpa [List.isEmpty_iff] using h
  unfold articleImageWait
  simp only [he, Bool.false_eq_true, if_false]
  split
  · exact min_le_right _ _
  · exact le_refl _

/-- On a nonempty list whose images all complete or fire, the
article-path wait resolves at the last completion instant, capped by the
ceiling. -/
theorem articleImageWait_resolveAt_eq (imgs : List ImgState) (h : imgs ≠ [])
    (hall : ∀ i ∈ imgs, i.complete = true ∨ i.eventAt.isSome = true) :
    (articleImageWait imgs).resolveAt
      = min (lastCompletionTime imgs) imageWaitCeilingMs := by
  have he : imgs.isEmpty = false := by
    simpa [List.isEmpty_iff] using h
  have hc : allEventuallyCounted imgs = true := allEventuallyCounted_of imgs hall
  simp [articleImageWait, he, hc]

/-- Lemma: `mdRender` distributes over token-list concatenation. -/
theorem mdRender_append (cfg : MarkdownItConfig) (l1 l2 : List MdToken) :
    mdRender cfg (l1 ++ l2) = mdRender cfg l1 ++ mdRender cfg l2 := by
  induction l1 with
  | nil => simp [mdRender, String.empty_append]
  | cons t ts ih => simp [mdRender, ih, String.append_assoc]

set_option maxRecDepth 400000

/-! ## Claim theorems -/

/-- C1: in every article-command run and every paste-command run the
event trace contains exactly as many `close` events as `acquire` events
— the `finally` block closes the page on every exit path after a
successful acquisition (successful capture, readiness timeout, or a
throw during viewport setup, content load, readiness waits or
screenshot) — so the pool's available-surface count returns to its
pre-acquisition value. -/
theorem surface_released_on_every_path :
    (∀ e : ArticleEnv,
        (articleRun e).1.count Ev.close = (articleRun e).1.count Ev.acquire
        ∧ netPoolChange (articleRun e).1 = 0)
    ∧ (∀ e : PasteEnv,
        (pasteRun e).1.count Ev.close = (pasteRun e).1.count Ev.acquire
        ∧ netPoolChange (pasteRun e).1 = 0) := by
  constructor <;> decide

/-- C2: with zero embedded images both in-page image waits resolve
immediately (instant 0) with no timer registered and no listener
registered, in the article path and the paste path alike. -/
theorem zero_images_resolve_immediately :
    articleImageWait [] = ⟨0, false, 0⟩ ∧ pasteImageWait [] = ⟨0, false, 0⟩ := by
  decide

/-- C3: on every nonempty image list the image-readiness wait resolves
no later than the fixed 5000 ms ceiling (even if some image never
fires), and when every image either is complete or fires its
load-or-error event — an errored image counts exactly like a loaded one
— the wait resolves at the last completion instant capped by the
ceiling, in both paths. -/
theorem image_wait_bounded_and_error_tolerant :
    (∀ imgs : List ImgState, imgs ≠ [] →
        (articleImageWait imgs).resolveAt ≤ imageWaitCeilingMs
        ∧ (pasteImageWait imgs).resolveAt ≤ imageWaitCeilingMs)
    ∧ (∀ imgs : List ImgState, imgs ≠ [] →
        (∀ i ∈ imgs, i.complete = true ∨ i.eventAt.isSome = true) →
        (articleImageWait imgs).resolveAt
            = min (lastCompletionTime imgs) imageWaitCeilingMs
        ∧ (pasteImageWait imgs).resolveAt
            = min (lastCompletionTime imgs) imageWaitCeilingMs) := by
  constructor
  · intro imgs h
    refine ⟨articleImageWait_resolveAt_le imgs h, ?_⟩
    rw [pasteImageWait_eq_articleImageWait]
    exact articleImageWait_resolveAt_le imgs h
  · intro imgs h hall
    refine ⟨articleImageWait_resolveAt_eq imgs h hall, ?_⟩
    rw [pasteImageWait_eq_articleImageWait]
    exact articleImageWait_resolveAt_eq imgs h hall

/-- C3 witness: the hypotheses hold at `witnessImgs` and the wait
resolves at the capped last completion instant (1200 ms, under the
5000 ms ceiling) even though one of the two images errored. -/
theorem image_wait_witness :
    (witnessImgs ≠ []
      ∧ (∀ i ∈ witnessImgs, i.complete = true ∨ i.eventAt.isSome = true))
    ∧ ((articleImageWait witnessImgs).resolveAt
          = min (lastCompletionTime witnessImgs) imageWaitCeilingMs
        ∧ (pasteImageWait witnessImgs).resolveAt
          = min (lastCompletionTime witnessImgs) imageWaitCeilingMs) :=
  ⟨⟨by decide, by decide⟩,
    image_wait_bounded_and_error_tolerant.2 witnessImgs (by decide) (by decide)⟩

/-- C4 counterexample: a successful paste-command run performs no
font-readiness wait at all — the paste path has no `document.fonts.ready`
step — refuting the claim that every render session run (article and
paste alike) performs the font-readiness check. -/
theorem paste_run_performs_no_font_wait :
    Ev.fontsWait ∉ (pasteRun pasteAllOk).1 := by decide

/-- C4 amended: the article-path run performs the font-readiness wait
and the image-readiness wait, in that order, before any capture; a
throw in the font wait is logged as a warning and is non-fatal (the run
still reaches the screenshot); the paste-path run performs the
image-readiness wait before capture but never performs a font-readiness
wait. -/
theorem readiness_checks_per_path :
    (∀ e : ArticleEnv,
        (Ev.screenshot ∈ (articleRun e).1 →
          isSubseqOf [Ev.fontsWait, Ev.imagesWait, Ev.screenshot]
            (articleRun e).1 = true)
        ∧ (Ev.fontsWait ∈ (articleRun e).1 → Ev.screenshot ∈ (articleRun e).1)
        ∧ (e.fontsReadyThrows = true → Ev.fontsWait ∈ (articleRun e).1 →
            Ev.fontsWarnLog ∈ (articleRun e).1))
    ∧ (∀ e : PasteEnv,
        (Ev.screenshot ∈ (pasteRun e).1 →
          isSubseqOf [Ev.imagesWait, Ev.screenshot] (pasteRun e).1 = true)
        ∧ Ev.fontsWait ∉ (pasteRun e).1) := by
  constructor <;> decide

/-- C4 witness: at `articleFontsThrow` the hypotheses hold and, applying
the amended theorem, the failed font wait is followed by the warning log
and the capture still proceeds in order. -/
theorem readiness_checks_witness :
    (Ev.screenshot ∈ (articleRun articleFontsThrow).1
      ∧ articleFontsThrow.fontsReadyThrows = true
      ∧ Ev.fontsWait ∈ (articleRun articleFontsThrow).1)
    ∧ (isSubseqOf [Ev.fontsWait, Ev.imagesWait, Ev.screenshot]
          (articleRun articleFontsThrow).1 = true
        ∧ Ev.fontsWarnLog ∈ (articleRun articleFontsThrow).1) :=
  ⟨⟨by decide, by decide, by decide⟩,
    (readiness_checks_per_path.1 articleFontsThrow).1 (by decide),
    (readiness_checks_per_path.1 articleFontsThrow).2.2 (by decide) (by decide)⟩

/-- C5 counterexample: at a concrete input the generated snapshot does
not contain the completion-flag name `__katex_render_done` at all, so it
declares no global completion-flag element for client-side typesetting
to set. -/
theorem snapshot_declares_no_katex_flag :
    hasSubstr (generateHtml "t" "a" "<p>x</p>") katexFlagName = false := by
  decide

/-- C5 amended: the fixed snapshot template contains no occurrence of
the completion-flag name (the snapshot declares no completion flag;
math is typeset at build time by the markdown engine's katex plugin);
the paste command's client-typeset readiness check polls exactly the
flag `window.__katex_render_done` with a 20000 ms ceiling, and its
timeout is tolerated, not fatal: the run still proceeds to screenshot. -/
theorem katex_flag_polled_but_never_declared :
    (hasSubstr htmlChunk0 katexFlagName = false
      ∧ hasSubstr htmlChunk1 katexFlagName = false
      ∧ hasSubstr htmlChunk2 katexFlagName = false
      ∧ hasSubstr htmlChunk3 katexFlagName = false)
    ∧ hasSubstr katexWaitCondition katexFlagName = true
    ∧ katexWaitTimeoutMs = 20000
    ∧ (∀ e : PasteEnv, e.katexWaitTimesOut = true →
        Ev.katexWait ∈ (pasteRun e).1 → Ev.screenshot ∈ (pasteRun e).1) :=
  ⟨⟨by decide, by decide, by decide, by decide⟩, by decide, rfl, by decide⟩

/-- C5 witness: at `pasteKatexTimeout` the hypotheses hold and, applying
the amended theorem, the run whose katex wait timed out still reaches
the screenshot. -/
theorem katex_flag_witness :
    (pasteKatexTimeout.katexWaitTimesOut = true
      ∧ Ev.katexWait ∈ (pasteRun pasteKatexTimeout).1)
    ∧ Ev.screenshot ∈ (pasteRun pasteKatexTimeout).1 :=
  ⟨⟨by decide, by decide⟩,
    katex_flag_polled_but_never_declared.2.2.2 pasteKatexTimeout
      (by decide) (by decide)⟩

/-- C6: every response envelope with `code ≠ 200` makes the
single-record operations return `null` (the NotFound outcome) rather
than throwing or returning data, and only a transport-level failure of
the HTTP call surfaces as the distinct error outcome. -/
theorem non_success_code_returns_null :
    (∀ r : StdResponse Article, r.code ≠ 200 → getArticle (.ok r) = .ok none)
    ∧ (∀ r : StdResponse Paste, r.code ≠ 200 → getPaste (.ok r) = .ok none)
    ∧ (∀ r : StdResponse TaskQuery, r.code ≠ 200 → getTask (.ok r) = .ok none)
    ∧ (∀ r : StdResponse TaskCreateResponse, r.code ≠ 200 →
        createTask (.ok r) = .ok none)
    ∧ (∀ err : TransportError,
        getArticle (.error err) = .error err
        ∧ getPaste (.error err) = .error err
        ∧ getTask (.error err) = .error err
        ∧ createTask (.error err) = .error err) := by
  refine ⟨?_, ?_, ?_, ?_, ?_⟩ <;> intros <;>
    simp_all [getArticle, getPaste, getTask, createTask]

/-- C6 witness: a concrete `404` envelope satisfies the hypothesis and,
applying the theorem, `getArticle` returns `null`. -/
theorem non_success_code_witness :
    ((⟨404, "not found", sampleArticle⟩ : StdResponse Article).code ≠ 200)
    ∧ getArticle (.ok ⟨404, "not found", sampleArticle⟩) = .ok none :=
  ⟨by decide,
    non_success_code_returns_null.1 ⟨404, "not found", sampleArticle⟩ (by decide)⟩

/-- C7: `buildUrl` satisfies the three concrete normalization examples;
an empty base yields the path unchanged; exactly one trailing slash is
trimmed from the base (a base with one trailing slash builds the same
URL as the base without it); and with a nonempty trimmed base the
separating slash is inserted exactly when the path lacks a leading
one. -/
theorem buildUrl_normalizes :
    buildUrl "http://x/" "/a/b" = "http://x/a/b"
    ∧ buildUrl "" "/a/b" = "/a/b"
    ∧ buildUrl "http://x" "a/b" = "http://x/a/b"
    ∧ (∀ p : String, buildUrl "" p = p)
    ∧ (∀ base p : String, base.data.getLast? ≠ some '/' →
        buildUrl (base ++ "/") p = buildUrl base p)
    ∧ (∀ base p : String, stripOneTrailingSlash base ≠ "" →
        (startsWithSlash p = true →
          buildUrl base p = stripOneTrailingSlash base ++ p)
        ∧ (startsWithSlash p = false →
          buildUrl base p = stripOneTrailingSlash base ++ "/" ++ p)) := by
  refine ⟨by decide, by decide, by decide, fun p => rfl, ?_, ?_⟩
  · intro base p h
    obtain ⟨l⟩ := base
    have hd : (String.mk l ++ "/") = String.mk (l ++ ['/']) := by
      have hc : "/" = String.mk ['/'] := rfl
      rw [hc]
      rfl
    have h1 : stripOneTrailingSlash (String.mk (l ++ ['/'])) = String.mk l := by
      unfold stripOneTrailingSlash
      simp
    have h2 : stripOneTrailingSlash (String.mk l) = String.mk l := by
      unfold stripOneTrailingSlash
      rw [if_neg h]
    rw [hd]
    simp only [buildUrl, h1, h2]
  · intro base p h
    constructor <;> intro hp <;> simp [buildUrl, h, hp]

/-- C7 witness: the trimming hypothesis holds at the concrete base
`http://x`, and applying the theorem, appending a trailing slash to it
builds the same URL. -/
theorem buildUrl_normalizes_witness :
    (("http://x" : String).data.getLast? ≠ some '/')
    ∧ buildUrl ("http://x" ++ "/") "/a/b" = buildUrl "http://x" "/a/b" :=
  ⟨by decide, buildUrl_normalizes.2.2.2.2.1 "http://x" "/a/b" (by decide)⟩

/-- C8: at a success envelope whose `data` field is the record list, the
three list operations return `null`, not the list: `res?.data?.data`
reads the `data` property of the record list itself — an array has no
such property — so the nullish coalescing falls back to `null`.  The
last conjunct shows the envelope does carry the list under `data`. -/
theorem list_ops_return_null_on_success :
    getRecent (.ok successEnvelope) = .ok JsVal.nullV
    ∧ getRelevant (.ok successEnvelope) = .ok JsVal.nullV
    ∧ getHistory (.ok successEnvelope) = .ok JsVal.nullV
    ∧ jsField successEnvelope "data"
        = .arr [.obj [("id", .str "a1"), ("title", .str "T")]] :=
  ⟨rfl, rfl, rfl, rfl⟩

/-- C9: the snapshot applies `escapeHtml` to the title and the author
info unconditionally; `escapeHtml` rewrites the HTML metacharacters; the
engine is constructed with `html: true`; and with that configuration a
raw inline-HTML fragment of the body is emitted verbatim into the
rendered body that the snapshot embeds unchanged. -/
theorem title_author_escaped_body_passthrough :
    (∀ t a b : String,
        generateHtml t a b
          = htmlChunk0 ++ escapeHtml t ++ htmlChunk1 ++ escapeHtml a
              ++ htmlChunk2 ++ b ++ htmlChunk3)
    ∧ escapeHtml "<b attr=\"u\"> & " = "&lt;b attr=&quot;u&quot;&gt; &amp; "
    ∧ mdConfig.html = true
    ∧ (∀ ts1 ts2 : List MdToken, ∀ s : String,
        mdRender mdConfig (ts1 ++ MdToken.htmlInline s :: ts2)
          = mdRender mdConfig ts1 ++ (s ++ mdRender mdConfig ts2)) := by
  refine ⟨fun t a b => rfl, by decide, rfl, ?_⟩
  intro ts1 ts2 s
  rw [show MdToken.htmlInline s :: ts2 = [MdToken.htmlInline s] ++ ts2 from rfl,
    mdRender_append, mdRender_append]
  simp [mdRender, renderToken, mdConfig, String.append_empty, String.append_assoc]

/-- C10: in both capture commands the applied viewport width equals the
numeric width option whenever it is a nonzero number and falls back to
960 when the option is absent, NaN or zero; the height is always 800 and
the device scale factor always 2. -/
theorem viewport_width_and_constants :
    (∀ x : Int, x ≠ 0 →
        articleViewport (some (.val x)) = ⟨.val x, 800, 2⟩
        ∧ pasteViewport (some (.val x)) = ⟨.val x, 800, 2⟩)
    ∧ articleViewport none = ⟨.val 960, 800, 2⟩
    ∧ articleViewport (some .nan) = ⟨.val 960, 800, 2⟩
    ∧ articleViewport (some (.val 0)) = ⟨.val 960, 800, 2⟩
    ∧ pasteViewport none = ⟨.val 960, 800, 2⟩
    ∧ pasteViewport (some .nan) = ⟨.val 960, 800, 2⟩
    ∧ pasteViewport (some (.val 0)) = ⟨.val 960, 800, 2⟩
    ∧ (∀ w : Option JsNumber,
        (articleViewport w).height = 800
        ∧ (articleViewport w).deviceScaleFactor = 2
        ∧ (pasteViewport w).height = 800
        ∧ (pasteViewport w).deviceScaleFactor = 2) := by
  refine ⟨?_, by decide, by decide, by decide, by decide, by decide, by decide,
    fun w => ⟨rfl, rfl, rfl, rfl⟩⟩
  intro x h
  constructor <;>
    simp [articleViewport, pasteViewport, articleViewportWidth,
      pasteViewportWidth, jsNumberOf, jsTruthy, h]

/-- C10 witness: the nonzero hypothesis holds at width 1200 and,
applying the theorem, both commands apply width 1200. -/
theorem viewport_width_witness :
    ((1200 : Int) ≠ 0)
    ∧ articleViewport (some (.val 1200)) = ⟨.val 1200, 800, 2⟩
    ∧ pasteViewport (some (.val 1200)) = ⟨.val 1200, 800, 2⟩ :=
  ⟨by decide,
    (viewport_width_and_constants.1 1200 (by decide)).1,
    (viewport_width_and_constants.1 1200 (by decide)).2⟩


end LuoguSaverBot
